import Mathlib

/-!
# Session bookkeeping and route guarding of `src/App.jsx`

A shallow embedding of the `AuthProvider` component (the startup effect, `login`,
`signup`, `logout`), of `ProtectedRoute` and of the route table of `AppContent`.

* React state (`user`, `loading`), the `localStorage` slot `token`, and the axios default
  header `Authorization` are fields of one record, `Session`, passed explicitly.
* An axios request is an `Except Rejection α`: `.ok data` is a fulfilled promise carrying
  `res.data`, `.error cause` a rejected one.
* An `async` function returns `Except Rejection (result × Session)`: `.error` would be a
  rejected promise (a throw escaping the function).
* Asynchrony is a step function over events; an event is the resolution of a request
  (its handler runs to completion, as the single-threaded event loop guarantees) or a
  synchronous call of `logout`.
-/

namespace App

/-- The user object the API returns (`res.data` of `/api/profile`, `res.data.user` of
`/api/auth/login`). -/
structure User where
  fullName : String
  email : String
  role : String
deriving DecidableEq, Repr

/-- Why a request promise rejected. The handlers never inspect the cause. -/
inductive Rejection where
  | network : Rejection
  | timeout : Rejection
  | status (code : Nat) : Rejection
deriving DecidableEq, Repr

/-- The body `res.data` of a fulfilled `/api/auth/login` request. -/
structure LoginData where
  token : String
  user : User
deriving DecidableEq, Repr

/-- Everything `AuthProvider` reads or writes.

* `user`, `loading`: the two `useState` cells (lines 11-12);
* `stored`: `localStorage.getItem('token')`, `none` when the slot is absent;
* `authHeader`: `axios.defaults.headers.common['Authorization']`, `none` when absent;
* `profilePending`: the `/api/profile` request of the startup effect has been issued and
  its handlers have not run yet;
* `navigated`: the arguments of the `navigate(...)` calls made so far, oldest first. -/
structure Session where
  user : Option User
  loading : Bool
  stored : Option String
  authHeader : Option String
  profilePending : Bool
  navigated : List String
deriving DecidableEq, Repr

/-- The remote endpoints the action methods post to, as the environment answers them. -/
structure Api where
  postLogin : (email password : String) → Except Rejection LoginData
  postSignup : (fullName email password : String) → Except Rejection Unit

/-- A fresh page: `useState(null)`, `useState(true)`, a new axios instance without an
`Authorization` default, nothing in flight, and whatever the storage slot held. -/
def pageLoad (stored : Option String) : Session :=
  { user := none, loading := true, stored := stored, authHeader := none,
    profilePending := false, navigated := [] }

namespace AuthProvider

/-- Lines 15-27, the synchronous part of the mount effect. `if (token)` is JavaScript
truthiness: `null` and the empty string both take the `else` branch. -/
def useEffect (s : Session) : Session :=
  match s.stored with
  | some token =>
    if token ≠ "" then
      { s with authHeader := some ("Bearer " ++ token), profilePending := true }
    else
      { s with loading := false }
  | none => { s with loading := false }

/-- Line 20: `.then(res => setUser(res.data))`. -/
def profileThen (data : User) (s : Session) : Session :=
  { s with user := some data }

/-- Lines 21-22: `.catch(() => localStorage.removeItem('token'))`. -/
def profileCatch (s : Session) : Session :=
  { s with stored := none }

/-- Line 23: `.finally(() => setLoading(false))`. -/
def profileFinally (s : Session) : Session :=
  { s with loading := false }

/-- The handler chain of lines 19-23 run on the resolved `/api/profile` request. -/
def profileResolved (res : Except Rejection User) (s : Session) : Session :=
  let s1 := { s with profilePending := false }
  match res with
  | .ok data => profileFinally (profileThen data s1)
  | .error _ => profileFinally (profileCatch s1)

/-- Lines 30-38 from the point where `axios.post('/api/auth/login', ...)` has resolved.
The only statement of the `try` block that can throw on a rejected request is the
`await`, which precedes every write, so the `catch` block sees the state unchanged. -/
def loginResolved (res : Except Rejection LoginData) (s : Session) :
    Except Rejection (Bool × Session) :=
  try
    let data ← res
    let s1 := { s with stored := some data.token }
    let s2 := { s1 with authHeader := some ("Bearer " ++ data.token) }
    let s3 := { s2 with user := some data.user }
    pure (true, s3)
  catch _ =>
    pure (false, s)

/-- Lines 29-39. -/
def login (api : Api) (email password : String) (s : Session) :
    Except Rejection (Bool × Session) :=
  loginResolved (api.postLogin email password) s

/-- Lines 42-47 from the point where `axios.post('/api/auth/signup', ...)` has resolved. -/
def signupResolved (res : Except Rejection Unit) (s : Session) :
    Except Rejection (Bool × Session) :=
  try
    let _ ← res
    pure (true, s)
  catch _ =>
    pure (false, s)

/-- Lines 41-48. -/
def signup (api : Api) (fullName email password : String) (s : Session) :
    Except Rejection (Bool × Session) :=
  signupResolved (api.postSignup fullName email password) s

/-- Lines 50-55. -/
def logout (s : Session) : Session :=
  let s1 := { s with stored := none }
  let s2 := { s1 with authHeader := none }
  let s3 := { s2 with user := none }
  { s3 with navigated := s3.navigated ++ ["/login"] }

end AuthProvider

/-- The views the route table mounts. -/
inductive Page where
  | Login : Page
  | Signup : Page
  | Dashboard : Page
  | Profile : Page
deriving DecidableEq, Repr

/-- What a route element renders to: the spinner, a redirect, or the element handed in
(`children` of `ProtectedRoute`, the page component of an unguarded route). -/
inductive Element (α : Type) where
  | LoadingSpinner : Element α
  | Navigate (target : String) : Element α
  | render (children : α) : Element α
deriving DecidableEq, Repr

/-- Lines 70-76. `loading` and `user` are read from the context; `!user` is truthiness of
an object-or-null, `!==` is strict string inequality. -/
def ProtectedRoute {α : Type} (loading : Bool) (user : Option User) (adminOnly : Bool)
    (children : α) : Element α :=
  if loading then Element.LoadingSpinner
  else
    match user with
    | none => Element.Navigate "/login"
    | some u =>
      if adminOnly && u.role != "admin" then Element.Navigate "/profile"
      else Element.render children

/-- Lines 285-290: the route table, in source order, evaluated in the context `s`. -/
def routeTable (s : Session) : List (String × Element Page) :=
  [ ("/login", Element.render Page.Login),
    ("/signup", Element.render Page.Signup),
    ("/dashboard", ProtectedRoute s.loading s.user true Page.Dashboard),
    ("/profile", ProtectedRoute s.loading s.user false Page.Profile),
    ("/", Element.Navigate "/login"),
    ("*", Element.Navigate "/login") ]

/-- The form under which the router compares a static pattern with a location: trailing
slashes dropped, ASCII letters in lower case (routes are matched case-insensitively
unless declared `caseSensitive`, which none of lines 285-290 is). -/
def normalizePath (path : String) : String :=
  String.mk (((path.toList.reverse.dropWhile (fun c => c == '/')).reverse).map Char.toLower)

/-- Whether the route pattern matches the location: `*` matches every location, a static
pattern matches the locations that normalize to it. -/
def matchPath (pattern location : String) : Bool :=
  pattern == "*" || normalizePath pattern == normalizePath location

/-- The `<Routes>` element of lines 284-291: the element of the matching route. At most
one static pattern of the table matches a location, and `*`, which the router ranks
below every static pattern, is the last entry. -/
def Routes (s : Session) (path : String) : Option (Element Page) :=
  ((routeTable s).find? (fun r => matchPath r.1 path)).map Prod.snd

/-! ## Interleavings -/

/-- One turn of the event loop that touches the session: a request resolving, or a call
of `logout`. -/
inductive Event where
  | profileResolved (res : Except Rejection User) : Event
  | loginResolved (res : Except Rejection LoginData) : Event
  | signupResolved (res : Except Rejection Unit) : Event
  | logout : Event

/-- The session after one event; `none` when the event cannot happen (the profile request
resolves once, and only if it was issued) or when an action method throws. -/
def step (s : Session) : Event → Option Session
  | Event.profileResolved res =>
    if s.profilePending then some (AuthProvider.profileResolved res s) else none
  | Event.loginResolved res =>
    match AuthProvider.loginResolved res s with
    | .ok r => some r.2
    | .error _ => none
  | Event.signupResolved res =>
    match AuthProvider.signupResolved res s with
    | .ok r => some r.2
    | .error _ => none
  | Event.logout => some (AuthProvider.logout s)

/-- The session after a sequence of events. -/
def run (s : Session) : List Event → Option Session
  | [] => some s
  | e :: es => (step s e).bind (fun s1 => run s1 es)

/-- The session right after mount: the page has loaded and the startup effect has run. -/
def mounted (stored : Option String) : Session :=
  AuthProvider.useEffect (pageLoad stored)

/-- Whenever the current user is non-null, the store holds a token and the default
`Authorization` header is `Bearer` followed by that token. -/
def Consistent (s : Session) : Prop :=
  s.user ≠ none → ∃ t, s.stored = some t ∧ s.authHeader = some ("Bearer " ++ t)

/-- The event does not race the startup request: `logout` is not called while the profile
request is in flight, and the failure handler of the profile request does not run after
a login has already set the user. -/
def settled (s : Session) : Event → Bool
  | Event.logout => !s.profilePending
  | Event.profileResolved (.error _) => s.user.isNone
  | _ => true

/-- Every event of the sequence is `settled` in the session it happens in. -/
def orderly (s : Session) : List Event → Bool
  | [] => true
  | e :: es =>
    settled s e &&
      match step s e with
      | some s1 => orderly s1 es
      | none => true

/-- The startup request has not been raced: while it is in flight, and whenever the
current user is non-null, the store holds a token and the header carries it. -/
def Attached (s : Session) : Prop :=
  (s.profilePending = true ∨ s.user ≠ none) →
    ∃ t, s.stored = some t ∧ s.authHeader = some ("Bearer " ++ t)

/-- The user of the login scenario. -/
def scenarioUser : User :=
  { fullName := "A B", email := "a@b.com", role := "admin" }

/-- An API that accepts the credentials of the login scenario and rejects every other
login with status 401, and that accepts every signup but one with an empty email. -/
def scenarioApi : Api :=
  { postLogin := fun email password =>
      if email = "a@b.com" ∧ password = "Secret1" then
        .ok { token := "tok123", user := scenarioUser }
      else .error (Rejection.status 401)
    postSignup := fun _ email _ =>
      if email = "" then .error (Rejection.status 400) else .ok () }

/-- The session in which a stale profile response has set the user after `logout`. -/
def racedSession : Session :=
  { user := some scenarioUser, loading := false, stored := none, authHeader := none,
    profilePending := false, navigated := ["/login"] }

/-- The Anonymous session a rejected startup request leaves behind when `tok123` was
stored at page load. -/
def staleHeaderSession : Session :=
  { user := none, loading := false, stored := none, authHeader := some "Bearer tok123",
    profilePending := false, navigated := [] }

/-! ## Route guard -/

/-- C1: `ProtectedRoute` follows the guard policy on every input: while loading it renders
the spinner (neither the child nor a redirect); otherwise a null user is redirected to
`/login`; otherwise an admin-only route with a role other than `admin` is redirected to
`/profile`; otherwise the child is rendered. In particular an admin-only route never
renders its child for a non-loading state whose user has a role other than `admin`. -/
theorem protectedRoute_policy {α : Type} (loading : Bool) (user : Option User)
    (adminOnly : Bool) (children : α) :
    (loading = true →
      ProtectedRoute loading user adminOnly children = Element.LoadingSpinner ∧
      ProtectedRoute loading user adminOnly children ≠ Element.render children ∧
      ∀ target, ProtectedRoute loading user adminOnly children ≠ Element.Navigate target) ∧
    (loading = false → user = none →
      ProtectedRoute loading user adminOnly children = Element.Navigate "/login") ∧
    (∀ u, loading = false → user = some u → adminOnly = true → u.role ≠ "admin" →
      ProtectedRoute loading user adminOnly children = Element.Navigate "/profile") ∧
    (∀ u, loading = false → user = some u → (adminOnly = false ∨ u.role = "admin") →
      ProtectedRoute loading user adminOnly children = Element.render children) ∧
    (∀ u, loading = false → user = some u → u.role ≠ "admin" →
      ProtectedRoute loading user true children ≠ Element.render children) := by
  refine ⟨?_, ?_, ?_, ?_, ?_⟩
  · intro h
    subst h
    simp [ProtectedRoute]
  · intro h hu
    subst h hu
    simp [ProtectedRoute]
  · intro u h hu ha hr
    subst h hu ha
    simp [ProtectedRoute, hr]
  · intro u h hu hor
    subst h hu
    rcases hor with ha | hr
    · subst ha
      simp [ProtectedRoute]
    · simp [ProtectedRoute, hr]
  · intro u h hu hr
    subst h hu
    simp [ProtectedRoute, hr]

/-! ## Startup -/

/-- C2: if the startup effect issues the profile request for the stored token `T`, then
the request resolving with profile `P` ends non-loading with user `P`, the request
failing ends non-loading with a null user and an empty store; and with no token in the
store the effect ends non-loading with a null user and no request issued. -/
theorem startup_validation (T : String)
    (hreq : (mounted (some T)).profilePending = true) :
    (∀ P : User, ∃ s, step (mounted (some T)) (Event.profileResolved (.ok P)) = some s ∧
      s.loading = false ∧ s.user = some P) ∧
    (∀ cause : Rejection,
      ∃ s, step (mounted (some T)) (Event.profileResolved (.error cause)) = some s ∧
        s.loading = false ∧ s.user = none ∧ s.stored = none ∧ s.stored ≠ some T) ∧
    ((mounted none).loading = false ∧ (mounted none).user = none ∧
      (mounted none).profilePending = false) := by
  refine ⟨?_, ?_, ?_⟩
  · intro P
    refine ⟨AuthProvider.profileResolved (.ok P) (mounted (some T)),
      by simp [step, hreq], ?_, ?_⟩
    · simp [AuthProvider.profileResolved, AuthProvider.profileFinally]
    · simp [AuthProvider.profileResolved, AuthProvider.profileFinally,
        AuthProvider.profileThen]
  · intro cause
    refine ⟨AuthProvider.profileResolved (.error cause) (mounted (some T)),
      by simp [step, hreq], ?_, ?_, ?_, ?_⟩
    · simp [AuthProvider.profileResolved, AuthProvider.profileFinally]
    · simp only [AuthProvider.profileResolved, AuthProvider.profileFinally,
        AuthProvider.profileCatch, mounted, AuthProvider.useEffect, pageLoad]
      split <;> rfl
    · simp [AuthProvider.profileResolved, AuthProvider.profileFinally,
        AuthProvider.profileCatch]
    · simp [AuthProvider.profileResolved, AuthProvider.profileFinally,
        AuthProvider.profileCatch]
  · simp [mounted, AuthProvider.useEffect, pageLoad]

/-- The startup effect issues the profile request for the token `tok123`; the request
then resolves either way as `startup_validation` says. -/
theorem startup_validation_witness :
    (mounted (some "tok123")).profilePending = true ∧
    (∀ P : User, ∃ s, step (mounted (some "tok123")) (Event.profileResolved (.ok P)) = some s ∧
      s.loading = false ∧ s.user = some P) :=
  ⟨by decide, (startup_validation "tok123" (by decide)).1⟩

/-- C4: with the token `tok123` in the store at page load and the profile request
rejected with status 401, the failure handler empties the store and ends non-loading with
a null user, but the default `Authorization` header is still `Bearer tok123`. -/
theorem startup_failure_keeps_header :
    step (mounted (some "tok123")) (Event.profileResolved (.error (Rejection.status 401))) =
      some { user := none, loading := false, stored := none,
             authHeader := some "Bearer tok123", profilePending := false,
             navigated := [] } := by
  decide

/-! ## Action methods -/

/-- C5: if the login request succeeds with token `t` and user `u`, then `login` returns
`true` without throwing, and afterwards the store holds `t`, the default `Authorization`
header is `Bearer ` followed by `t`, the current user is `u`, and nothing else changed. -/
theorem login_success (api : Api) (email password : String) (s : Session) (t : String)
    (u : User) (hres : api.postLogin email password = .ok ⟨t, u⟩) :
    AuthProvider.login api email password s =
      .ok (true, { s with stored := some t, authHeader := some ("Bearer " ++ t),
                          user := some u }) := by
  simp only [AuthProvider.login, hres]
  rfl

/-- C6: if the login request is rejected, for whatever cause, `login` returns `false`
without throwing and the session (user, store, header and the rest) is as before. -/
theorem login_failure (api : Api) (email password : String) (s : Session)
    (cause : Rejection) (hres : api.postLogin email password = .error cause) :
    AuthProvider.login api email password s = .ok (false, s) := by
  simp only [AuthProvider.login, hres]
  rfl

/-- C7: after `logout`, from any session, the store is empty, the default
`Authorization` header is absent, the current user is null, and `/login` is the
navigation that has just been triggered. -/
theorem logout_post (s : Session) :
    (AuthProvider.logout s).stored = none ∧
    (AuthProvider.logout s).authHeader = none ∧
    (AuthProvider.logout s).user = none ∧
    (AuthProvider.logout s).navigated = s.navigated ++ ["/login"] := by
  simp [AuthProvider.logout]

/-- C8: `signup` never throws and returns the session it was given, whatever the
request does; it returns `true` exactly when the request succeeded and `false` exactly
when it was rejected. -/
theorem signup_frame (api : Api) (fullName email password : String) (s : Session) :
    ∃ b : Bool, AuthProvider.signup api fullName email password s = .ok (b, s) ∧
      (b = true ↔ ∃ r, api.postSignup fullName email password = .ok r) ∧
      (b = false ↔ ∃ cause, api.postSignup fullName email password = .error cause) := by
  unfold AuthProvider.signup
  cases h : api.postSignup fullName email password with
  | ok r => exact ⟨true, rfl, by simp, by simp⟩
  | error cause => exact ⟨false, rfl, by simp, by simp⟩

/-- C9, as stated, fails: with the token `tok123` in the store at page load and the
profile request rejected, the session reached is Anonymous (null user, not loading) with
the header `Bearer tok123` still attached; `logout` called from there removes the
header, so it does not leave the header unchanged. -/
theorem logout_after_failed_startup_changes_header :
    run (mounted (some "tok123")) [Event.profileResolved (.error Rejection.network)] =
      some staleHeaderSession ∧
    staleHeaderSession.user = none ∧ staleHeaderSession.loading = false ∧
    (AuthProvider.logout staleHeaderSession).authHeader ≠ staleHeaderSession.authHeader := by
  decide

/-- C9, amended: from a session with a null user, an empty store and no `Authorization`
header attached, `logout` changes nothing but the navigations, to which it appends
`/login`; and from every session a second `logout` leaves user, loading flag, store and
header as the first one left them, and navigates to `/login` once more. -/
theorem logout_noop_when_clean (s : Session) :
    (s.user = none → s.stored = none → s.authHeader = none →
      AuthProvider.logout s = { s with navigated := s.navigated ++ ["/login"] }) ∧
    ((AuthProvider.logout (AuthProvider.logout s)).user = (AuthProvider.logout s).user ∧
     (AuthProvider.logout (AuthProvider.logout s)).loading = (AuthProvider.logout s).loading ∧
     (AuthProvider.logout (AuthProvider.logout s)).stored = (AuthProvider.logout s).stored ∧
     (AuthProvider.logout (AuthProvider.logout s)).authHeader =
       (AuthProvider.logout s).authHeader ∧
     (AuthProvider.logout (AuthProvider.logout s)).navigated =
       (AuthProvider.logout s).navigated ++ ["/login"]) := by
  refine ⟨?_, by simp [AuthProvider.logout]⟩
  intro hu hs hh
  cases s
  simp only at hu hs hh
  subst hu hs hh
  rfl

/-- The Anonymous session of a page loaded without a token has a null user, an empty
store and no header; `logout` from it only navigates to `/login`. -/
theorem logout_noop_when_clean_witness :
    (mounted none).user = none ∧ (mounted none).loading = false ∧
    (mounted none).stored = none ∧ (mounted none).authHeader = none ∧
    AuthProvider.logout (mounted none) =
      { mounted none with navigated := (mounted none).navigated ++ ["/login"] } :=
  ⟨by decide, by decide, by decide, by decide,
    (logout_noop_when_clean (mounted none)).1 (by decide) (by decide) (by decide)⟩

/-! ## Login followed by navigation -/

/-- The location `/dashboard` is served by the admin-only guarded dashboard route. -/
theorem routes_dashboard (s : Session) :
    Routes s "/dashboard" = some (ProtectedRoute s.loading s.user true Page.Dashboard) := by
  have h1 : matchPath "/login" "/dashboard" = false := by decide
  have h2 : matchPath "/signup" "/dashboard" = false := by decide
  have h3 : matchPath "/dashboard" "/dashboard" = true := by decide
  simp [Routes, routeTable, List.find?, h1, h2, h3]

/-- The location `/profile` is served by the guarded profile route. -/
theorem routes_profile (s : Session) :
    Routes s "/profile" = some (ProtectedRoute s.loading s.user false Page.Profile) := by
  have h1 : matchPath "/login" "/profile" = false := by decide
  have h2 : matchPath "/signup" "/profile" = false := by decide
  have h3 : matchPath "/dashboard" "/profile" = false := by decide
  have h4 : matchPath "/profile" "/profile" = true := by decide
  simp [Routes, routeTable, List.find?, h1, h2, h3, h4]

/-- C10: from a non-loading session, after a login that succeeds with token `t` and user
`u`, the store holds `t`, `/dashboard` renders the dashboard when the role of `u` is
`admin` and redirects to `/profile` otherwise, and `/profile` renders the profile. -/
theorem login_then_routes (api : Api) (email password : String) (s : Session)
    (t : String) (u : User) (hload : s.loading = false)
    (hres : api.postLogin email password = .ok ⟨t, u⟩) :
    ∃ s1, AuthProvider.login api email password s = .ok (true, s1) ∧
      s1.stored = some t ∧
      Routes s1 "/dashboard" =
        some (if u.role = "admin" then Element.render Page.Dashboard
              else Element.Navigate "/profile") ∧
      Routes s1 "/profile" = some (Element.render Page.Profile) := by
  refine ⟨{ s with stored := some t, authHeader := some ("Bearer " ++ t),
                   user := some u }, ?_, rfl, ?_, ?_⟩
  · simp only [AuthProvider.login, hres]
    rfl
  · by_cases hr : u.role = "admin" <;>
      simp [routes_dashboard, ProtectedRoute, hload, hr]
  · simp [routes_profile, ProtectedRoute, hload]

/-- The login scenario: from the Anonymous session of a page loaded without a token, the
credentials `a@b.com` / `Secret1` leave `tok123` in the store and `/dashboard` renders
the dashboard. -/
theorem login_then_routes_witness :
    (mounted none).loading = false ∧
    scenarioApi.postLogin "a@b.com" "Secret1" = .ok ⟨"tok123", scenarioUser⟩ ∧
    ∃ s1, AuthProvider.login scenarioApi "a@b.com" "Secret1" (mounted none) = .ok (true, s1) ∧
      s1.stored = some "tok123" ∧
      Routes s1 "/dashboard" =
        some (if scenarioUser.role = "admin" then Element.render Page.Dashboard
              else Element.Navigate "/profile") ∧
      Routes s1 "/profile" = some (Element.render Page.Profile) :=
  ⟨by decide, by simp [scenarioApi],
    login_then_routes scenarioApi "a@b.com" "Secret1" (mounted none) "tok123" scenarioUser
      (by decide) (by simp [scenarioApi])⟩

/-- A successful login with the scenario credentials, from a session that already holds
another token. -/
theorem login_success_witness :
    scenarioApi.postLogin "a@b.com" "Secret1" = .ok ⟨"tok123", scenarioUser⟩ ∧
    AuthProvider.login scenarioApi "a@b.com" "Secret1" (mounted (some "tok000")) =
      .ok (true, { mounted (some "tok000") with
                     stored := some "tok123",
                     authHeader := some ("Bearer " ++ "tok123"),
                     user := some scenarioUser }) :=
  ⟨by simp [scenarioApi], login_success scenarioApi "a@b.com" "Secret1"
    (mounted (some "tok000")) "tok123" scenarioUser (by simp [scenarioApi])⟩

/-- A rejected login (wrong password) while the stored token is being validated. -/
theorem login_failure_witness :
    scenarioApi.postLogin "a@b.com" "wrong" = .error (Rejection.status 401) ∧
    AuthProvider.login scenarioApi "a@b.com" "wrong" (mounted (some "tok000")) =
      .ok (false, mounted (some "tok000")) :=
  ⟨by simp [scenarioApi], login_failure scenarioApi "a@b.com" "wrong"
    (mounted (some "tok000")) (Rejection.status 401) (by simp [scenarioApi])⟩

/-! ## Consistency of user, store and header -/

/-- Right after mount the request is in flight only with the token stored and attached. -/
theorem attached_mounted (stored : Option String) : Attached (mounted stored) := by
  intro h
  cases stored with
  | none => simp [mounted, AuthProvider.useEffect, pageLoad] at h
  | some T =>
    by_cases hT : T = ""
    · simp [mounted, AuthProvider.useEffect, pageLoad, hT] at h
    · exact ⟨T, by simp [mounted, AuthProvider.useEffect, pageLoad, hT]⟩

/-- A settled event preserves `Attached`. -/
theorem attached_step (s s1 : Session) (e : Event) (hs : Attached s)
    (hset : settled s e = true) (hstep : step s e = some s1) : Attached s1 := by
  cases e with
  | profileResolved res =>
    by_cases hp : s.profilePending = true
    · simp only [step, hp, if_true, Option.some.injEq] at hstep
      subst hstep
      obtain ⟨t, ht, hh⟩ := hs (Or.inl hp)
      cases res with
      | ok P =>
        intro _
        exact ⟨t, ht, hh⟩
      | error cause =>
        intro h
        have hu : s.user = none := by simpa [settled] using hset
        simp [AuthProvider.profileResolved, AuthProvider.profileFinally,
          AuthProvider.profileCatch, hu] at h
    · simp [step, hp] at hstep
  | loginResolved res =>
    cases res with
    | ok d =>
      have h1 : s1 = { s with stored := some d.token,
                              authHeader := some ("Bearer " ++ d.token),
                              user := some d.user } := by
        have h2 : step s (Event.loginResolved (.ok d)) =
            some { s with stored := some d.token,
                          authHeader := some ("Bearer " ++ d.token),
                          user := some d.user } := rfl
        rw [h2] at hstep
        exact (Option.some.inj hstep).symm
      subst h1
      intro _
      exact ⟨d.token, rfl, rfl⟩
    | error cause =>
      have h2 : step s (Event.loginResolved (.error cause)) = some s := rfl
      rw [h2] at hstep
      cases hstep
      exact hs
  | signupResolved res =>
    have h2 : step s (Event.signupResolved res) = some s := by
      cases res <;> rfl
    rw [h2] at hstep
    cases hstep
    exact hs
  | logout =>
    have hp : s.profilePending = false := by simpa [settled] using hset
    simp only [step, Option.some.injEq] at hstep
    subst hstep
    intro h
    simp [AuthProvider.logout, hp] at h

/-- Along an orderly sequence of events `Attached` holds at the end. -/
theorem attached_run (evs : List Event) (s s1 : Session) (hs : Attached s)
    (hord : orderly s evs = true) (hrun : run s evs = some s1) : Attached s1 := by
  induction evs generalizing s with
  | nil =>
    simp only [run, Option.some.injEq] at hrun
    subst hrun
    exact hs
  | cons e es ih =>
    cases hstep : step s e with
    | none => simp [run, hstep] at hrun
    | some s2 =>
      simp only [run, hstep, Option.bind_some] at hrun
      simp only [orderly, hstep, Bool.and_eq_true] at hord
      exact ih s2 (attached_step s s2 e hs hord.1 hstep) hord.2 hrun

/-- C3, as stated, fails: with `tok123` stored at page load, a login that succeeds and a
`logout` both happen while the profile request is in flight; the request then succeeds
and sets the user although the store is empty and no header is attached. -/
theorem consistency_broken_by_stale_profile :
    run (mounted (some "tok123"))
        [Event.loginResolved (.ok { token := "tok456", user := scenarioUser }),
         Event.logout,
         Event.profileResolved (.ok scenarioUser)] = some racedSession ∧
    ¬ Consistent racedSession := by
  refine ⟨by decide, ?_⟩
  intro h
  obtain ⟨t, ht, _⟩ := h (by simp [racedSession])
  simp [racedSession] at ht

/-- C3, amended: in every session reached from a page load by events none of which races
the startup request (`orderly`), a non-null user comes with a stored token that the
`Authorization` header carries as `Bearer` token; and no further such event empties the
store while leaving the user non-null. -/
theorem consistent_of_orderly (stored : Option String) (evs : List Event) (s : Session)
    (hord : orderly (mounted stored) evs = true)
    (hrun : run (mounted stored) evs = some s) :
    Consistent s ∧
    ∀ e s1, settled s e = true → step s e = some s1 → s1.stored = none →
      s1.user = none := by
  have hs : Attached s := attached_run evs (mounted stored) s (attached_mounted stored) hord hrun
  refine ⟨fun hu => hs (Or.inr hu), ?_⟩
  intro e s1 hset hstep hnone
  by_contra hu
  obtain ⟨t, ht, _⟩ := attached_step s s1 e hs hset hstep (Or.inr hu)
  rw [hnone] at ht
  cases ht

/-- An orderly run: the stored token `tok123` is validated, the user logs out and logs in
again with the scenario credentials; the final session is consistent. -/
theorem consistent_of_orderly_witness :
    orderly (mounted (some "tok123"))
      [Event.profileResolved (.ok scenarioUser), Event.logout,
       Event.loginResolved (.ok { token := "tok456", user := scenarioUser })] = true ∧
    run (mounted (some "tok123"))
      [Event.profileResolved (.ok scenarioUser), Event.logout,
       Event.loginResolved (.ok { token := "tok456", user := scenarioUser })] =
      some { user := some scenarioUser, loading := false, stored := some "tok456",
             authHeader := some "Bearer tok456", profilePending := false,
             navigated := ["/login"] } ∧
    Consistent { user := some scenarioUser, loading := false, stored := some "tok456",
                 authHeader := some "Bearer tok456", profilePending := false,
                 navigated := ["/login"] } :=
  ⟨by decide, by decide,
    (consistent_of_orderly (some "tok123")
      [Event.profileResolved (.ok scenarioUser), Event.logout,
       Event.loginResolved (.ok { token := "tok456", user := scenarioUser })] _
      (by decide) (by decide)).1⟩

end App
